import Mathlib

/-!
Shallow embedding of the IVXP/1.0 provider (`src/ivxp-provider.py`).

The provider keeps a mutable map `orders` from order id to an order record
and exposes five operations: `handle_service_request` (quote), `handle_delivery_request`
(payment gate), `deliver_to_client` (store-and-forward delivery), `check_order_status`
and `download_deliverable` (pure reads).  External collaborators (the `eth_account`
signature recovery, the blockchain RPC payment lookup, the `requests.post` push call,
SHA-256/`json.dumps` and wall-clock time) are modelled as explicit parameters: the
provider's own logic is embedded faithfully, statement by statement.
-/

namespace IVXP

/-- Order status strings used by the provider: `'quoted'`, `'paid'`,
`'delivered'`, `'delivery_failed'`. -/
inductive Status where
  | quoted
  | paid
  | delivered
  | delivery_failed
deriving DecidableEq, Repr

/-- `data['payment_proof']` of a deliver request: `tx_hash`, `from_address`,
`network` (string fields of the JSON object). -/
structure PaymentProof where
  tx_hash : String
  from_address : String
  network : String
deriving DecidableEq, Repr

/-- A deliverable as built by the fulfillment stub: `type`, `format` and the
`content` dict.  The content dict is carried as an opaque serializable value
(a `String` stands for the JSON value); hashing serializes it via the
externally-supplied digest. -/
structure Deliverable where
  dtype : String
  format : String
  content : String
deriving DecidableEq, Repr

/-- `data['client_agent']` of a service request. -/
structure ClientAgent where
  name : String
  wallet_address : String
  contact_endpoint : Option String := none
deriving DecidableEq, Repr

/-- `data['service_request']`: requested type, description and the client's
stated budget. -/
structure ServiceRequestBody where
  stype : String
  description : String
  budget_usdc : Nat
deriving DecidableEq, Repr

/-- One order record of the `orders` map.  Optional fields are absent keys of
the Python dict until the corresponding step sets them.  `price_usdc` and
`estimated_delivery` stand for `order['quote']['quote']['price_usdc']` and
`...['estimated_delivery']`; timestamps are seconds. -/
structure Order where
  status : Status
  client : ClientAgent
  service_request : ServiceRequestBody
  price_usdc : Nat
  estimated_delivery : Nat
  created_at : Nat
  payment_proof : Option PaymentProof := none
  delivery_endpoint : Option String := none
  paid_at : Option Nat := none
  deliverable : Option Deliverable := none
  content_hash : Option String := none
  completed_at : Option Nat := none
  delivered_at : Option Nat := none
deriving DecidableEq, Repr

/-- The `orders` dict: an association list keyed by order id. -/
abbrev OrderStore := List (String × Order)

/-- `order_id in orders` / `orders[order_id]` lookup. -/
def lookupOrder (orders : OrderStore) (order_id : String) : Option Order :=
  match orders with
  | [] => none
  | (k, o) :: rest => if k = order_id then some o else lookupOrder rest order_id

/-- `orders[order_id] = order` (replace when present, add when absent). -/
def insertOrder (orders : OrderStore) (order_id : String) (o : Order) : OrderStore :=
  match orders with
  | [] => [(order_id, o)]
  | (k, o') :: rest =>
      if k = order_id then (k, o) :: rest else (k, o') :: insertOrder rest order_id o

/-- `WALLET_ADDRESS` configuration default. -/
def WALLET_ADDRESS : String := "0x0c0feb248548e33571584809113891818d4b0805"

/-- One `SERVICE_CATALOG` entry: `base_price` and `delivery_hours`. -/
structure ServiceInfo where
  base_price : Nat
  delivery_hours : Nat
deriving DecidableEq, Repr

/-- `SERVICE_CATALOG.get(service_type)`. -/
def SERVICE_CATALOG (service_type : String) : Option ServiceInfo :=
  if service_type = "research" then some ⟨50, 8⟩
  else if service_type = "debugging" then some ⟨30, 4⟩
  else if service_type = "code_review" then some ⟨50, 12⟩
  else if service_type = "consultation" then some ⟨25, 2⟩
  else if service_type = "content" then some ⟨40, 6⟩
  else if service_type = "philosophy" then some ⟨3, 1⟩
  else none

/-!  ### Crypto verifier (`verify_signature`, lines 174-182)

`encode_defunct` / `Account.recover_message` belong to `eth_account`; the pair is
modelled as one abstract recovery function `recover message signature`, returning
`none` when the library raises (malformed signature, decoding error) and
`some address` when recovery succeeds.  The provider's own code is the `try`
body and the fail-closed `except` branch. -/

/-- `verify_signature(message, signature, expected_address)`: recover the signer
and compare case-insensitively; any exception from recovery yields `False`. -/
def verify_signature (recover : String → String → Option String)
    (message signature expected_address : String) : Bool :=
  match recover message signature with
  | some recovered_address => recovered_address.toLower == expected_address.toLower
  | none => false

/-!  ### `verify_payment` (lines 184-211)

The function posts `eth_getTransactionByHash` for `payment_proof['tx_hash']` to
the Base RPC endpoint.  `TxLookup` is the joint outcome of that network call:
the request raised, the HTTP status was not 200, the JSON `result` was null
(transaction not found), or a transaction object came back.  Note the reference
body never reads `expected_to` / `expected_amount`: it only confirms existence. -/

/-- Outcome of the blockchain RPC lookup of a transaction hash. -/
inductive TxLookup where
  | exn
  | httpError (status_code : Nat)
  | txNotFound
  | txFound
deriving DecidableEq, Repr

/-- `verify_payment(payment_proof, expected_to, expected_amount)`: true exactly
when the RPC call returns HTTP 200 with a non-null transaction object; the
`expected_to` / `expected_amount` arguments are accepted but unused. -/
def verify_payment (lookup : String → TxLookup) (payment_proof : PaymentProof)
    (expected_to : String) (expected_amount : Nat) : Bool :=
  match lookup payment_proof.tx_hash with
  | .txFound => true
  | _ => false

/-!  ### `handle_service_request` (`POST /ivxp/request`, lines 49-114) -/

/-- A `service_request` wire message. -/
structure RequestMsg where
  protocol : String
  message_type : String
  client_agent : ClientAgent
  service_request : ServiceRequestBody
deriving DecidableEq, Repr

/-- The `quote` object of the provider's `service_quote` response. -/
structure QuoteBody where
  price_usdc : Nat
  estimated_delivery : Nat
  payment_address : String
  network : String
  token_contract : String
deriving DecidableEq, Repr

/-- Response of `POST /ivxp/request`: the three 400 errors or the 200 quote. -/
inductive RequestResponse where
  | badProtocol
  | badMessageType
  | unknownService (service_type : String)
  | serviceQuote (order_id : String) (quote : QuoteBody)
deriving DecidableEq, Repr

/-- `handle_service_request`: validate protocol and message type, look the
service type up in `SERVICE_CATALOG`, build the quote from the catalog entry
(price = `base_price`, delivery estimate = now + `delivery_hours`), store the
order in status `quoted` and return the quote.  `now` is the wall clock in
seconds and `uuid` the generated `uuid4` string. -/
def handle_service_request (now : Nat) (uuid : String)
    (orders : OrderStore) (data : RequestMsg) : RequestResponse × OrderStore :=
  if data.protocol ≠ "IVXP/1.0" then (.badProtocol, orders)
  else if data.message_type ≠ "service_request" then (.badMessageType, orders)
  else
    let order_id := "ivxp-" ++ uuid
    let service_type := data.service_request.stype
    match SERVICE_CATALOG service_type with
    | none => (.unknownService service_type, orders)
    | some service_info =>
        let delivery_time := now + service_info.delivery_hours * 3600
        let quote : QuoteBody :=
          { price_usdc := service_info.base_price
            estimated_delivery := delivery_time
            payment_address := WALLET_ADDRESS
            network := "base-mainnet"
            token_contract := "0x833589fCD6eDb6E08f4c7C32D4f71b54bdA02913" }
        let order : Order :=
          { status := .quoted
            client := data.client_agent
            service_request := data.service_request
            price_usdc := quote.price_usdc
            estimated_delivery := quote.estimated_delivery
            created_at := now }
        (.serviceQuote order_id quote, insertOrder orders order_id order)

/-!  ### `handle_delivery_request` (`POST /ivxp/deliver`, lines 116-172) -/

/-- A deliver wire message: `order_id`, `signed_message`, `signature`,
`payment_proof`, `delivery_endpoint` (may be JSON null). -/
structure DeliverData where
  order_id : String
  signed_message : String
  signature : String
  payment_proof : PaymentProof
  delivery_endpoint : Option String
deriving DecidableEq, Repr

/-- Response of `POST /ivxp/deliver`: 404 unknown order, 401 signature failure,
402 payment failure, or 200 accepted. -/
inductive DeliverResponse where
  | orderNotFound
  | signatureFailed
  | paymentFailed
  | accepted (order_id : String)
deriving DecidableEq, Repr

/-- `handle_delivery_request`: look the order up, verify the signature against
`payment_proof['from_address']`, verify the payment against the quoted price,
then mark the order `paid` (storing `payment_proof`, `delivery_endpoint`,
`paid_at`) and start `process_service_async`.  The returned `Bool` records
whether the fulfillment run was triggered.  The reference code checks the
order's existence but never its current status. -/
def handle_delivery_request (recover : String → String → Option String)
    (lookup : String → TxLookup) (now : Nat)
    (orders : OrderStore) (data : DeliverData) :
    DeliverResponse × OrderStore × Bool :=
  match lookupOrder orders data.order_id with
  | none => (.orderNotFound, orders, false)
  | some order =>
      if verify_signature recover data.signed_message data.signature
          data.payment_proof.from_address then
        if verify_payment lookup data.payment_proof WALLET_ADDRESS order.price_usdc then
          let order' := { order with
            status := .paid
            payment_proof := some data.payment_proof
            delivery_endpoint := data.delivery_endpoint
            paid_at := some now }
          (.accepted data.order_id, insertOrder orders data.order_id order', true)
        else (.paymentFailed, orders, false)
      else (.signatureFailed, orders, false)

/-!  ### Delivery component (`deliver_to_client`, lines 254-306)

`requests.post(delivery_endpoint, ...)` is external: `PushOutcome` is either an
HTTP response with its status code or a raised transport exception.  The
function's observable behaviour is the final order record plus the ordered
trace of its effects: each `save_orders` call commits the order's state at that
point (`DeliveryEvent.save`), and the push attempt is `DeliveryEvent.push`. -/

/-- `create_content_hash(content)`:
`hashlib.sha256(json.dumps(content, sort_keys=True).encode()).hexdigest()`.
The deterministic serialize-and-digest pipeline is the abstract `digest`
function applied to the content value. -/
def create_content_hash (digest : String → String) (content : String) : String :=
  digest content

/-- Outcome of the push network call: an HTTP response or a raised exception. -/
inductive PushOutcome where
  | response (status_code : Nat)
  | exn
deriving DecidableEq, Repr

/-- Observable effects of `deliver_to_client`, in program order: `save` is a
`save_orders` call committing the given order state; `push` is the
`requests.post` delivery attempt. -/
inductive DeliveryEvent where
  | save (committed : Order)
  | push (endpoint : String) (deliverable : Deliverable) (content_hash : String)
deriving DecidableEq, Repr

/-- `deliver_to_client(order_id, deliverable)`: compute the content hash, attach
`deliverable`/`content_hash`/`completed_at` to the order and save it FIRST;
then, when a (truthy) `delivery_endpoint` is present, attempt one push: HTTP 200
sets `delivered` (+ `delivered_at`); any other response or exception — or no
endpoint — sets `delivery_failed`.  Returns the final order and the effect
trace. -/
def deliver_to_client (digest : String → String) (now : Nat)
    (pushOutcome : PushOutcome) (order : Order) (deliverable : Deliverable) :
    Order × List DeliveryEvent :=
  let content_hash := create_content_hash digest deliverable.content
  let o1 : Order := { order with
    deliverable := some deliverable
    content_hash := some content_hash
    completed_at := some now }
  match order.delivery_endpoint with
  | some ep =>
      if ep.isEmpty then
        let o2 := { o1 with status := .delivery_failed }
        (o2, [.save o1, .save o2])
      else
        match pushOutcome with
        | .response status_code =>
            if status_code = 200 then
              let o2 := { o1 with status := .delivered, delivered_at := some now }
              (o2, [.save o1, .push ep deliverable content_hash, .save o2])
            else
              let o2 := { o1 with status := .delivery_failed }
              (o2, [.save o1, .push ep deliverable content_hash, .save o2])
        | .exn =>
            let o2 := { o1 with status := .delivery_failed }
            (o2, [.save o1, .push ep deliverable content_hash, .save o2])
  | none =>
      let o2 := { o1 with status := .delivery_failed }
      (o2, [.save o1, .save o2])

/-!  ### `check_order_status` (`GET /ivxp/status/<order_id>`, lines 313-327)

The 200 response is a JSON object; it is embedded as the literal list of
key/value pairs the handler passes to `jsonify`, so that which keys the
response carries is itself provable. -/

/-- A JSON value appearing in the status response. -/
inductive JVal where
  | s (v : String)
  | n (v : Nat)
  | st (v : Status)
deriving DecidableEq, Repr

/-- Response of `GET /ivxp/status/<order_id>`: 404 or the 200 JSON object. -/
inductive StatusResult where
  | notFound
  | ok (body : List (String × JVal))
deriving DecidableEq, Repr

/-- `check_order_status(order_id)`: 404 when unknown, else the object with
exactly the keys `order_id`, `status`, `created_at`, `service_type`,
`price_usdc`.  The store is returned unchanged (pure read). -/
def check_order_status (orders : OrderStore) (order_id : String) :
    StatusResult × OrderStore :=
  match lookupOrder orders order_id with
  | none => (.notFound, orders)
  | some order =>
      (.ok [("order_id", .s order_id),
            ("status", .st order.status),
            ("created_at", .n order.created_at),
            ("service_type", .s order.service_request.stype),
            ("price_usdc", .n order.price_usdc)], orders)

/-!  ### `download_deliverable` (`GET /ivxp/download/<order_id>`, lines 347-387) -/

/-- Response of `GET /ivxp/download/<order_id>`: 404 unknown order; the two 202
"not ready" hints (`pending_payment` for `quoted`, `processing` for `paid`);
the 200 delivery payload; or the 404 `Service not yet completed` fallthrough. -/
inductive DownloadResponse where
  | notFound
  | pendingPayment
  | processing
  | delivery (deliverable : Deliverable) (delivered_at : Option Nat)
      (content_hash : Option String)
  | notCompleted (status : Status)
deriving DecidableEq, Repr

/-- HTTP status code attached to each `DownloadResponse` by the handler. -/
def downloadHttpCode : DownloadResponse → Nat
  | .notFound => 404
  | .pendingPayment => 202
  | .processing => 202
  | .delivery _ _ _ => 200
  | .notCompleted _ => 404

/-- `download_deliverable(order_id)`: 404 when unknown; 202 hints for
`quoted`/`paid`; the full delivery payload (deliverable, `delivered_at`,
`content_hash`) when status is `delivered` or `delivery_failed` and a
deliverable is attached; 404 fallthrough otherwise.  The store is returned
unchanged (pure read). -/
def download_deliverable (orders : OrderStore) (order_id : String) :
    DownloadResponse × OrderStore :=
  match lookupOrder orders order_id with
  | none => (.notFound, orders)
  | some order =>
      if order.status = .quoted then (.pendingPayment, orders)
      else if order.status = .paid then (.processing, orders)
      else if (order.status = .delivered ∨ order.status = .delivery_failed)
          ∧ order.deliverable.isSome then
        match order.deliverable with
        | some d => (.delivery d order.delivered_at order.content_hash, orders)
        | none => (.notCompleted order.status, orders)
      else (.notCompleted order.status, orders)

/-!  ## Concrete sample values used by witnesses and counterexamples -/

/-- Sample client agent. -/
def sampleClient : ClientAgent :=
  { name := "alice", wallet_address := "0xclient" }

/-- Sample service request body (catalogued type `research`, small budget). -/
def sampleRequestBody : ServiceRequestBody :=
  { stype := "research", description := "d", budget_usdc := 1 }

/-- Sample freshly quoted order for the `research` service. -/
def sampleQuotedOrder : Order :=
  { status := .quoted, client := sampleClient, service_request := sampleRequestBody
    price_usdc := 50, estimated_delivery := 28800, created_at := 0 }

/-- Sample payment proof whose payer address matches `recoverOk`. -/
def sampleProof : PaymentProof :=
  { tx_hash := "0xtx", from_address := "0xabc", network := "base-mainnet" }

/-- A second, different payment proof (used to re-submit `deliver`). -/
def sampleNewProof : PaymentProof :=
  { tx_hash := "0xnew", from_address := "0xabc", network := "base-mainnet" }

/-- Recovery stub that always raises (library failure). -/
def recoverFail : String → String → Option String := fun _ _ => none

/-- Recovery stub that recovers the address `0xabc`. -/
def recoverOk : String → String → Option String := fun _ _ => some "0xabc"

/-- RPC stub: every transaction hash resolves to a transaction object. -/
def lookupFound : String → TxLookup := fun _ => .txFound

/-- Sample deliver request for order `ivxp-1`. -/
def sampleDeliverData : DeliverData :=
  { order_id := "ivxp-1", signed_message := "m", signature := "s"
    payment_proof := sampleProof, delivery_endpoint := some "http://client" }

/-- Order `ivxp-1` already paid via `sampleProof` at time 5. -/
def samplePaidOrder : Order :=
  { sampleQuotedOrder with
    status := .paid
    payment_proof := some sampleProof
    delivery_endpoint := some "http://client"
    paid_at := some 5 }

/-- Re-submission of `deliver` for `ivxp-1` with the new proof and endpoint. -/
def resubmitData : DeliverData :=
  { order_id := "ivxp-1", signed_message := "m2", signature := "s2"
    payment_proof := sampleNewProof, delivery_endpoint := some "http://client2" }

/-- Sample deliverable produced by fulfillment. -/
def sampleDeliverable : Deliverable :=
  { dtype := "research_deliverable", format := "markdown", content := "body" }

/-- Paid order with no delivery endpoint (pull-only client). -/
def sampleNoEndpointOrder : Order :=
  { sampleQuotedOrder with
    status := .paid
    payment_proof := some sampleProof
    delivery_endpoint := none
    paid_at := some 5 }

/-- Identity digest stub standing for the serialize-and-hash pipeline. -/
def idDigest : String → String := fun s => s

/-- Sample well-formed `service_request` wire message (budget 1 < price 50). -/
def sampleRequestMsg : RequestMsg :=
  { protocol := "IVXP/1.0", message_type := "service_request"
    client_agent := sampleClient, service_request := sampleRequestBody }

/-- Delivered order carrying its deliverable, hash and timestamps. -/
def sampleDeliveredOrder : Order :=
  { samplePaidOrder with
    status := .delivered
    deliverable := some sampleDeliverable
    content_hash := some "body"
    completed_at := some 6
    delivered_at := some 7 }

/-- Keys of a JSON response object. -/
def responseKeys (body : List (String × JVal)) : List String :=
  body.map Prod.fst

/-- The state of `samplePaidOrder` committed by the store-and-forward save:
still `paid`, but already carrying the deliverable and content hash. -/
def storeAndForwardCommit : Order :=
  { samplePaidOrder with
    deliverable := some sampleDeliverable
    content_hash := some "body"
    completed_at := some 9 }

/-!  ## Helper lemmas -/

/-- Looking up the key just inserted returns the inserted order. -/
theorem lookupOrder_insertOrder_self (orders : OrderStore) (k : String) (o : Order) :
    lookupOrder (insertOrder orders k o) k = some o := by
  induction orders with
  | nil => simp [insertOrder, lookupOrder]
  | cons hd tl ih =>
      by_cases h : hd.1 = k
      · simp [insertOrder, lookupOrder, h]
      · simp [insertOrder, lookupOrder, h, ih]

/-- `download_deliverable` never writes the store back modified. -/
theorem download_deliverable_preserves_store (orders : OrderStore) (order_id : String) :
    (download_deliverable orders order_id).2 = orders := by
  unfold download_deliverable
  repeat' split
  all_goals rfl

/-- Downloading an order as left by `deliver_to_client` always serves the
delivered content together with the hash that was computed from it. -/
theorem download_after_delivery (digest : String → String) (now : Nat)
    (po : PushOutcome) (order : Order) (deliverable : Deliverable) (oid : String) :
    (download_deliverable
        [(oid, (deliver_to_client digest now po order deliverable).1)] oid).1 =
      .delivery deliverable
        (deliver_to_client digest now po order deliverable).1.delivered_at
        (some (create_content_hash digest deliverable.content)) := by
  simp only [deliver_to_client]
  repeat' split
  all_goals simp [download_deliverable, lookupOrder]

/-!  ## Claims -/

/-- C9: `verify_signature` returns a boolean and fails closed: it returns
`true` exactly when address recovery succeeds and the recovered address equals
the claimed address case-insensitively, and returns `false` whenever recovery
raises (malformed signature or decoding error) or the addresses mismatch. -/
theorem verify_signature_recovers_case_insensitively
    (recover : String → String → Option String)
    (message signature expected_address : String) :
    (verify_signature recover message signature expected_address = true ↔
      ∃ a, recover message signature = some a ∧ a.toLower = expected_address.toLower)
    ∧ (recover message signature = none →
      verify_signature recover message signature expected_address = false) := by
  constructor
  · unfold verify_signature
    cases h : recover message signature with
    | none => simp [h]
    | some a => simp [h]
  · intro h
    simp [verify_signature, h]

/-- Closed instance of C9's theorem at concrete inputs: a recovery failure
yields `false`, and a case-insensitive match yields `true`. -/
theorem verify_signature_recovers_case_insensitively_witness :
    ((verify_signature recoverFail "m" "s" "0xAbC" = true ↔
      ∃ a, recoverFail "m" "s" = some a ∧ a.toLower = "0xAbC".toLower)
    ∧ (recoverFail "m" "s" = none →
      verify_signature recoverFail "m" "s" "0xAbC" = false)) ∧
    verify_signature recoverOk "m" "s" "0xabc" = true :=
  ⟨verify_signature_recovers_case_insensitively recoverFail "m" "s" "0xAbC",
    by simp [verify_signature, recoverOk]⟩

/-- C2: a `deliver` call on a `quoted` order that fails signature verification
returns the 401 signature error, and one that passes the signature but fails
payment verification returns the distinct 402 payment error; in both cases the
order store is returned unchanged — the order stays `quoted` with no
`payment_proof`, `paid_at` or `delivery_endpoint` stored — and no fulfillment
run is triggered, so the client may retry. -/
theorem deliver_verification_failure_leaves_order_unchanged
    (recover : String → String → Option String) (lookup : String → TxLookup)
    (now : Nat) (orders : OrderStore) (data : DeliverData) (order : Order)
    (hord : lookupOrder orders data.order_id = some order)
    (hq : order.status = .quoted) :
    (verify_signature recover data.signed_message data.signature
        data.payment_proof.from_address = false →
      handle_delivery_request recover lookup now orders data =
        (.signatureFailed, orders, false)) ∧
    (verify_signature recover data.signed_message data.signature
        data.payment_proof.from_address = true →
      verify_payment lookup data.payment_proof WALLET_ADDRESS order.price_usdc = false →
      handle_delivery_request recover lookup now orders data =
        (.paymentFailed, orders, false)) ∧
    DeliverResponse.signatureFailed ≠ DeliverResponse.paymentFailed := by
  refine ⟨?_, ?_, by simp⟩
  · intro hsig
    simp [handle_delivery_request, hord, hsig]
  · intro hsig hpay
    simp [handle_delivery_request, hord, hsig, hpay]

/-- Closed instance of C2's theorem: the hypotheses hold for the concrete
quoted order `ivxp-1` and the conclusion follows by applying the theorem. -/
theorem deliver_verification_failure_leaves_order_unchanged_witness :
    (lookupOrder [("ivxp-1", sampleQuotedOrder)] sampleDeliverData.order_id =
        some sampleQuotedOrder ∧
      sampleQuotedOrder.status = .quoted) ∧
    ((verify_signature recoverFail sampleDeliverData.signed_message
        sampleDeliverData.signature sampleDeliverData.payment_proof.from_address = false →
      handle_delivery_request recoverFail lookupFound 7
          [("ivxp-1", sampleQuotedOrder)] sampleDeliverData =
        (.signatureFailed, [("ivxp-1", sampleQuotedOrder)], false)) ∧
    (verify_signature recoverFail sampleDeliverData.signed_message
        sampleDeliverData.signature sampleDeliverData.payment_proof.from_address = true →
      verify_payment lookupFound sampleDeliverData.payment_proof WALLET_ADDRESS
          sampleQuotedOrder.price_usdc = false →
      handle_delivery_request recoverFail lookupFound 7
          [("ivxp-1", sampleQuotedOrder)] sampleDeliverData =
        (.paymentFailed, [("ivxp-1", sampleQuotedOrder)], false)) ∧
    DeliverResponse.signatureFailed ≠ DeliverResponse.paymentFailed) :=
  ⟨⟨by decide, by decide⟩,
    deliver_verification_failure_leaves_order_unchanged recoverFail lookupFound 7
      [("ivxp-1", sampleQuotedOrder)] sampleDeliverData sampleQuotedOrder
      (by decide) (by decide)⟩

/-- C10: an accepted `request` is quoted entirely from the catalog: the quote's
`price_usdc` is the catalog `base_price` of the requested type and
`estimated_delivery` is the catalog `delivery_hours` from now; the client's
`budget_usdc` is ignored — the response is identical for every budget value,
so the request succeeds at full catalog price even when the budget is lower. -/
theorem request_quotes_catalog_price_ignoring_budget
    (now : Nat) (uuid : String) (orders : OrderStore) (data : RequestMsg)
    (info : ServiceInfo)
    (hp : data.protocol = "IVXP/1.0") (hm : data.message_type = "service_request")
    (hc : SERVICE_CATALOG data.service_request.stype = some info) :
    ((handle_service_request now uuid orders data).1 =
      .serviceQuote ("ivxp-" ++ uuid)
        { price_usdc := info.base_price
          estimated_delivery := now + info.delivery_hours * 3600
          payment_address := WALLET_ADDRESS
          network := "base-mainnet"
          token_contract := "0x833589fCD6eDb6E08f4c7C32D4f71b54bdA02913" }) ∧
    (∀ b : Nat, (handle_service_request now uuid orders
        { data with service_request :=
            { data.service_request with budget_usdc := b } }).1 =
      (handle_service_request now uuid orders data).1) := by
  constructor
  · simp [handle_service_request, hp, hm, hc]
  · intro b
    simp [handle_service_request, hp, hm, hc]

/-- Closed instance of C10's theorem: the `research` request with budget 1
(below the price of 50) is quoted at the full catalog price of 50, due in
8 hours, for every budget value. -/
theorem request_quotes_catalog_price_ignoring_budget_witness :
    (sampleRequestMsg.protocol = "IVXP/1.0" ∧
      sampleRequestMsg.message_type = "service_request" ∧
      SERVICE_CATALOG sampleRequestMsg.service_request.stype = some ⟨50, 8⟩ ∧
      sampleRequestMsg.service_request.budget_usdc = 1) ∧
    ((handle_service_request 0 "u" [] sampleRequestMsg).1 =
      .serviceQuote "ivxp-u"
        { price_usdc := 50
          estimated_delivery := 0 + 8 * 3600
          payment_address := WALLET_ADDRESS
          network := "base-mainnet"
          token_contract := "0x833589fCD6eDb6E08f4c7C32D4f71b54bdA02913" }) ∧
    (∀ b : Nat, (handle_service_request 0 "u" []
        { sampleRequestMsg with service_request :=
            { sampleRequestMsg.service_request with budget_usdc := b } }).1 =
      (handle_service_request 0 "u" [] sampleRequestMsg).1) :=
  ⟨⟨by decide, by decide, by decide, by decide⟩,
    request_quotes_catalog_price_ignoring_budget 0 "u" [] sampleRequestMsg
      ⟨50, 8⟩ (by decide) (by decide) (by decide)⟩

/-- C1: evaluation of the code at the failing input.  Order `ivxp-1` is already
`paid` (proof `sampleProof`, `paid_at` 5), yet a second `deliver` with a fresh
proof is NOT rejected with an invalid-state error: `handle_delivery_request`
re-verifies, answers `accepted`, overwrites `payment_proof` with the new proof,
overwrites `paid_at` (5 becomes 9) and `delivery_endpoint`, and triggers a
second fulfillment run (final component `true`).  The reference handler never
inspects the order's status, contradicting the claimed one-shot gate. -/
theorem second_deliver_is_accepted_and_retriggers :
    samplePaidOrder.status = .paid ∧
    samplePaidOrder.payment_proof = some sampleProof ∧
    samplePaidOrder.paid_at = some 5 ∧
    handle_delivery_request recoverOk lookupFound 9
        [("ivxp-1", samplePaidOrder)] resubmitData =
      (.accepted "ivxp-1",
       [("ivxp-1",
         { samplePaidOrder with
           payment_proof := some sampleNewProof
           delivery_endpoint := some "http://client2"
           paid_at := some 9 })],
       true) := by
  refine ⟨by decide, by decide, by decide, ?_⟩
  have hsig : verify_signature recoverOk "m2" "s2" "0xabc" = true := by
    simp [verify_signature, recoverOk]
  simp [handle_delivery_request, resubmitData, samplePaidOrder, sampleQuotedOrder,
    sampleNewProof, sampleProof, hsig, verify_payment, lookupFound, lookupOrder,
    insertOrder]

/-- C3: store-and-forward — the very first effect of `deliver_to_client` is a
`save_orders` committing the deliverable, its content hash and `completed_at`,
so it happens strictly before any push network call; and the final order
carries the deliverable whatever the push outcome, so the stored artifact's
existence never depends on delivery succeeding. -/
theorem deliverable_saved_before_any_push
    (digest : String → String) (now : Nat) (po : PushOutcome)
    (order : Order) (deliverable : Deliverable) :
    (∃ o1 : Order,
      (deliver_to_client digest now po order deliverable).2.head? =
        some (.save o1) ∧
      o1.deliverable = some deliverable ∧
      o1.content_hash = some (create_content_hash digest deliverable.content) ∧
      o1.completed_at = some now) ∧
    (deliver_to_client digest now po order deliverable).1.deliverable =
      some deliverable := by
  simp only [deliver_to_client]
  repeat' split
  all_goals exact ⟨⟨_, rfl, rfl, rfl, rfl⟩, rfl⟩

/-- C4: counterexample to the claimed invariant.  Delivering `samplePaidOrder`
commits (via `save_orders`) an intermediate order state that is still `paid`
yet already carries `deliverable` and `content_hash` — an observer of the
store between the store-and-forward save and the status update sees a `paid`
order with a deliverable attached. -/
theorem intermediate_commit_is_paid_with_deliverable :
    DeliveryEvent.save storeAndForwardCommit ∈
      (deliver_to_client idDigest 9 (.response 200) samplePaidOrder
        sampleDeliverable).2 ∧
    storeAndForwardCommit.status = .paid ∧
    storeAndForwardCommit.deliverable.isSome = true ∧
    storeAndForwardCommit.content_hash.isSome = true := by decide

/-- C4 (amended): presence of `deliverable`/`content_hash` matches a terminal
status at the boundaries of each operation — a freshly created order is
`quoted` with both fields absent, and the final state of `deliver_to_client`
carries both fields with status `delivered` or `delivery_failed` — but the
equivalence does not hold of every committed state: the store-and-forward save
commits a `paid` state that already carries both fields. -/
theorem deliverable_presence_at_rest_matches_terminal_status
    (digest : String → String) (now : Nat) (po : PushOutcome)
    (order : Order) (deliverable : Deliverable)
    (now' : Nat) (uuid : String) (orders : OrderStore) (data : RequestMsg)
    (info : ServiceInfo)
    (hp : data.protocol = "IVXP/1.0") (hm : data.message_type = "service_request")
    (hc : SERVICE_CATALOG data.service_request.stype = some info) :
    ((deliver_to_client digest now po order deliverable).1.deliverable =
        some deliverable ∧
     (deliver_to_client digest now po order deliverable).1.content_hash =
        some (create_content_hash digest deliverable.content) ∧
     ((deliver_to_client digest now po order deliverable).1.status = .delivered ∨
      (deliver_to_client digest now po order deliverable).1.status =
        .delivery_failed)) ∧
    (∃ o : Order,
      lookupOrder (handle_service_request now' uuid orders data).2
          ("ivxp-" ++ uuid) = some o ∧
      o.status = .quoted ∧ o.deliverable = none ∧ o.content_hash = none) := by
  constructor
  · simp only [deliver_to_client]
    repeat' split
    all_goals simp
  · simp only [handle_service_request]
    rw [if_neg (by simp [hp]), if_neg (by simp [hm])]
    simp only [hc]
    exact ⟨_, lookupOrder_insertOrder_self orders ("ivxp-" ++ uuid) _, rfl, rfl, rfl⟩

/-- Closed instance of C4's amended theorem at concrete inputs. -/
theorem deliverable_presence_at_rest_matches_terminal_status_witness :
    (sampleRequestMsg.protocol = "IVXP/1.0" ∧
     sampleRequestMsg.message_type = "service_request" ∧
     SERVICE_CATALOG sampleRequestMsg.service_request.stype = some ⟨50, 8⟩) ∧
    (((deliver_to_client idDigest 9 .exn sampleNoEndpointOrder
        sampleDeliverable).1.deliverable = some sampleDeliverable ∧
      (deliver_to_client idDigest 9 .exn sampleNoEndpointOrder
        sampleDeliverable).1.content_hash =
        some (create_content_hash idDigest sampleDeliverable.content) ∧
      ((deliver_to_client idDigest 9 .exn sampleNoEndpointOrder
          sampleDeliverable).1.status = .delivered ∨
       (deliver_to_client idDigest 9 .exn sampleNoEndpointOrder
          sampleDeliverable).1.status = .delivery_failed)) ∧
     (∃ o : Order,
       lookupOrder (handle_service_request 0 "u" [] sampleRequestMsg).2
           ("ivxp-" ++ "u") = some o ∧
       o.status = .quoted ∧ o.deliverable = none ∧ o.content_hash = none)) :=
  ⟨⟨by decide, by decide, by decide⟩,
    deliverable_presence_at_rest_matches_terminal_status idDigest 9 .exn
      sampleNoEndpointOrder sampleDeliverable 0 "u" [] sampleRequestMsg ⟨50, 8⟩
      (by decide) (by decide) (by decide)⟩

/-- C5: delivery without a (truthy) endpoint, or whose push attempt gets a
non-200 response or raises, always ends in `delivery_failed` and never
`delivered`; and `download` serves the same full deliverable and hash after
every push outcome, so content is identical in `delivered` and
`delivery_failed`. -/
theorem push_failure_or_no_endpoint_lands_delivery_failed
    (digest : String → String) (now : Nat) (order : Order)
    (deliverable : Deliverable) (oid : String) :
    ((order.delivery_endpoint = none ∨ order.delivery_endpoint = some "" →
      ∀ po, (deliver_to_client digest now po order deliverable).1.status =
        .delivery_failed) ∧
     (∀ code, code ≠ 200 →
      (deliver_to_client digest now (.response code) order
        deliverable).1.status = .delivery_failed) ∧
     (deliver_to_client digest now .exn order deliverable).1.status =
       .delivery_failed) ∧
    (∀ po, (download_deliverable
        [(oid, (deliver_to_client digest now po order deliverable).1)] oid).1 =
      .delivery deliverable
        (deliver_to_client digest now po order deliverable).1.delivered_at
        (some (create_content_hash digest deliverable.content))) := by
  refine ⟨⟨?_, ?_, ?_⟩, fun po => download_after_delivery digest now po order deliverable oid⟩
  · rintro (h | h) po
    · simp [deliver_to_client, h]
    · have he : "".isEmpty = true := by decide
      simp [deliver_to_client, h, he]
  · intro code hne
    simp only [deliver_to_client]
    repeat' split
    all_goals simp_all
  · simp only [deliver_to_client]
    repeat' split
    all_goals simp_all

/-- Closed instance of C5's theorem at a pull-only order (no endpoint). -/
theorem push_failure_or_no_endpoint_lands_delivery_failed_witness :
    ((sampleNoEndpointOrder.delivery_endpoint = none ∨
        sampleNoEndpointOrder.delivery_endpoint = some "" →
      ∀ po, (deliver_to_client idDigest 9 po sampleNoEndpointOrder
        sampleDeliverable).1.status = .delivery_failed) ∧
     (∀ code, code ≠ 200 →
      (deliver_to_client idDigest 9 (.response code) sampleNoEndpointOrder
        sampleDeliverable).1.status = .delivery_failed) ∧
     (deliver_to_client idDigest 9 .exn sampleNoEndpointOrder
        sampleDeliverable).1.status = .delivery_failed) ∧
    (∀ po, (download_deliverable
        [("ivxp-1", (deliver_to_client idDigest 9 po sampleNoEndpointOrder
          sampleDeliverable).1)] "ivxp-1").1 =
      .delivery sampleDeliverable
        (deliver_to_client idDigest 9 po sampleNoEndpointOrder
          sampleDeliverable).1.delivered_at
        (some (create_content_hash idDigest sampleDeliverable.content))) :=
  push_failure_or_no_endpoint_lands_delivery_failed idDigest 9
    sampleNoEndpointOrder sampleDeliverable "ivxp-1"

/-- C6: whenever `download` serves a delivery payload for an order completed
through `deliver_to_client`, the served hash is exactly the digest recomputed
from the served content (the hash is a pure function of the content), and a
repeated `download` returns the identical response on the identical store
(idempotent, unlimited re-reads). -/
theorem download_serves_stored_hash_of_content
    (digest : String → String) (now : Nat) (po : PushOutcome)
    (order : Order) (deliverable : Deliverable) (oid : String)
    (d : Deliverable) (da : Option Nat) (h : Option String)
    (hdl : (download_deliverable
        [(oid, (deliver_to_client digest now po order deliverable).1)] oid).1 =
      .delivery d da h) :
    h = some (create_content_hash digest d.content) ∧
    download_deliverable
        [(oid, (deliver_to_client digest now po order deliverable).1)] oid =
      download_deliverable
        (download_deliverable
          [(oid, (deliver_to_client digest now po order deliverable).1)]
          oid).2 oid := by
  have hserve := download_after_delivery digest now po order deliverable oid
  rw [hdl] at hserve
  obtain ⟨hd, -, hh⟩ := DownloadResponse.delivery.inj hserve.symm
  constructor
  · subst hd
    exact hh.symm
  · rw [download_deliverable_preserves_store]

/-- Closed instance of C6's theorem: the hypothesis holds for the concrete
completed order `ivxp-1` and the conclusion follows by applying the theorem. -/
theorem download_serves_stored_hash_of_content_witness :
    ((download_deliverable
        [("ivxp-1", (deliver_to_client idDigest 9 .exn sampleNoEndpointOrder
          sampleDeliverable).1)] "ivxp-1").1 =
      .delivery sampleDeliverable none (some "body")) ∧
    (some "body" =
        some (create_content_hash idDigest sampleDeliverable.content) ∧
      download_deliverable
          [("ivxp-1", (deliver_to_client idDigest 9 .exn sampleNoEndpointOrder
            sampleDeliverable).1)] "ivxp-1" =
        download_deliverable
          (download_deliverable
            [("ivxp-1", (deliver_to_client idDigest 9 .exn sampleNoEndpointOrder
              sampleDeliverable).1)] "ivxp-1").2 "ivxp-1") :=
  ⟨by decide,
    download_serves_stored_hash_of_content idDigest 9 .exn sampleNoEndpointOrder
      sampleDeliverable "ivxp-1" sampleDeliverable none (some "body") (by decide)⟩

/-- C7: `download` is a pure read; it serves a delivery payload only when the
order's status is `delivered` or `delivery_failed` (and then serves exactly
the stored deliverable and hash); on `quoted` it answers the soft 202
`pending_payment` hint and on `paid` the distinct soft 202 `processing` hint,
never a hard error. -/
theorem download_is_gated_pure_read
    (orders : OrderStore) (order_id : String) (order : Order)
    (hord : lookupOrder orders order_id = some order) :
    (download_deliverable orders order_id).2 = orders ∧
    (∀ d da h, (download_deliverable orders order_id).1 = .delivery d da h →
      (order.status = .delivered ∨ order.status = .delivery_failed) ∧
      order.deliverable = some d ∧ order.content_hash = h) ∧
    (order.status = .quoted →
      (download_deliverable orders order_id).1 = .pendingPayment ∧
      downloadHttpCode (download_deliverable orders order_id).1 = 202) ∧
    (order.status = .paid →
      (download_deliverable orders order_id).1 = .processing ∧
      downloadHttpCode (download_deliverable orders order_id).1 = 202) := by
  refine ⟨download_deliverable_preserves_store orders order_id, ?_, ?_, ?_⟩
  · intro d da h hdl
    unfold download_deliverable at hdl
    rw [hord] at hdl
    cases hst : order.status <;> simp [hst] at hdl
    all_goals
      cases hdel : order.deliverable <;> simp [hdel] at hdl
    all_goals
      simp [hst, hdel, hdl]
  · intro hst
    simp [download_deliverable, hord, hst, downloadHttpCode]
  · intro hst
    simp [download_deliverable, hord, hst, downloadHttpCode]

/-- Closed instance of C7's theorem at the concrete quoted order `ivxp-1`. -/
theorem download_is_gated_pure_read_witness :
    lookupOrder [("ivxp-1", sampleQuotedOrder)] "ivxp-1" =
      some sampleQuotedOrder ∧
    ((download_deliverable [("ivxp-1", sampleQuotedOrder)] "ivxp-1").2 =
        [("ivxp-1", sampleQuotedOrder)] ∧
     (∀ d da h, (download_deliverable [("ivxp-1", sampleQuotedOrder)]
          "ivxp-1").1 = .delivery d da h →
       (sampleQuotedOrder.status = .delivered ∨
        sampleQuotedOrder.status = .delivery_failed) ∧
       sampleQuotedOrder.deliverable = some d ∧
       sampleQuotedOrder.content_hash = h) ∧
     (sampleQuotedOrder.status = .quoted →
       (download_deliverable [("ivxp-1", sampleQuotedOrder)] "ivxp-1").1 =
         .pendingPayment ∧
       downloadHttpCode (download_deliverable [("ivxp-1", sampleQuotedOrder)]
         "ivxp-1").1 = 202) ∧
     (sampleQuotedOrder.status = .paid →
       (download_deliverable [("ivxp-1", sampleQuotedOrder)] "ivxp-1").1 =
         .processing ∧
       downloadHttpCode (download_deliverable [("ivxp-1", sampleQuotedOrder)]
         "ivxp-1").1 = 202)) :=
  ⟨by decide,
    download_is_gated_pure_read [("ivxp-1", sampleQuotedOrder)] "ivxp-1"
      sampleQuotedOrder (by decide)⟩

/-- C8: counterexample to the claim as stated.  `sampleDeliveredOrder` has been
fulfilled (`content_hash` present), yet the 200 response of
`check_order_status` consists of exactly the five keys `order_id`, `status`,
`created_at`, `service_type`, `price_usdc` — `content_hash` is not among
them. -/
theorem status_response_omits_content_hash :
    sampleDeliveredOrder.content_hash.isSome = true ∧
    (check_order_status [("ivxp-1", sampleDeliveredOrder)] "ivxp-1").1 =
      .ok [("order_id", .s "ivxp-1"), ("status", .st .delivered),
           ("created_at", .n 0), ("service_type", .s "research"),
           ("price_usdc", .n 50)] ∧
    "content_hash" ∉ responseKeys
      [("order_id", JVal.s "ivxp-1"), ("status", JVal.st .delivered),
       ("created_at", JVal.n 0), ("service_type", JVal.s "research"),
       ("price_usdc", JVal.n 50)] := by decide

/-- C8 (amended): for every existing order, `check_order_status` is a pure
read (the store is unchanged) returning exactly the current status, price,
service type and creation time under the five fixed keys; `content_hash` is
never part of the response, even after fulfillment. -/
theorem status_is_pure_read_without_content_hash
    (orders : OrderStore) (order_id : String) (order : Order)
    (hord : lookupOrder orders order_id = some order) :
    (check_order_status orders order_id).2 = orders ∧
    (check_order_status orders order_id).1 =
      .ok [("order_id", .s order_id), ("status", .st order.status),
           ("created_at", .n order.created_at),
           ("service_type", .s order.service_request.stype),
           ("price_usdc", .n order.price_usdc)] ∧
    (∀ body, (check_order_status orders order_id).1 = .ok body →
      "content_hash" ∉ responseKeys body) := by
  refine ⟨?_, ?_, ?_⟩
  · simp [check_order_status, hord]
  · simp [check_order_status, hord]
  · intro body hb
    simp only [check_order_status, hord, StatusResult.ok.injEq] at hb
    rw [← hb]
    simp [responseKeys]

/-- Closed instance of C8's amended theorem at the fulfilled order `ivxp-1`. -/
theorem status_is_pure_read_without_content_hash_witness :
    lookupOrder [("ivxp-1", sampleDeliveredOrder)] "ivxp-1" =
      some sampleDeliveredOrder ∧
    ((check_order_status [("ivxp-1", sampleDeliveredOrder)] "ivxp-1").2 =
        [("ivxp-1", sampleDeliveredOrder)] ∧
     (check_order_status [("ivxp-1", sampleDeliveredOrder)] "ivxp-1").1 =
       .ok [("order_id", .s "ivxp-1"),
            ("status", .st sampleDeliveredOrder.status),
            ("created_at", .n sampleDeliveredOrder.created_at),
            ("service_type", .s sampleDeliveredOrder.service_request.stype),
            ("price_usdc", .n sampleDeliveredOrder.price_usdc)] ∧
     (∀ body, (check_order_status [("ivxp-1", sampleDeliveredOrder)]
          "ivxp-1").1 = .ok body →
       "content_hash" ∉ responseKeys body)) :=
  ⟨by decide,
    status_is_pure_read_without_content_hash [("ivxp-1", sampleDeliveredOrder)]
      "ivxp-1" sampleDeliveredOrder (by decide)⟩

end IVXP
